import Mathlib

/-!
Verification development for the SMC client in `Sources/SMC/smc.c` and
`Sources/SMC/include/smc.h`.

The C code is shallowly embedded as executable Lean functions:

* machine integers become `Nat` (values of `kern_return_t` are written as
  their 32-bit patterns, e.g. `kIOReturnBadArgument = 0xE00002C2`);
* `unsigned char` becomes `Fin 256`, fixed 32-byte buffers become
  `Fin 32 → Fin 256`;
* the opaque privileged transport (`IOConnectCallStructMethod` behind
  `SMCCall`) becomes an oracle `Transport : Nat → SMCKeyData → SMCKeyData × Nat`
  mapping a selector and an input structure to an output structure and a
  kernel status;
* the process-global cache state (`g_keyInfoCache`, `g_cacheInitOnce`)
  becomes an explicit `CacheState` value threaded through the operations;
* each operation additionally returns the list of transport invocations it
  performed, so that statements about which privileged calls were issued can
  be made directly;
* a `none` result of a cache-using operation models undefined behavior:
  dereferencing the NULL map pointer `g_keyInfoCache`.
-/

/-- A byte, modelling C `unsigned char`. -/
abbrev Byte := Fin 256

/-- `UInt32Char_t` from smc.h: `unsigned char chars[5]` holding a
four-character code plus a terminating NUL byte. -/
structure UInt32Char where
  c0 : Byte
  c1 : Byte
  c2 : Byte
  c3 : Byte
  c4 : Byte
deriving DecidableEq

/-- All-zero character buffer (a fresh, memset `UInt32Char_t`). -/
def zeroChars : UInt32Char := ⟨0, 0, 0, 0, 0⟩

/-- `kIOReturnSuccess`. -/
def kIOReturnSuccess : Nat := 0

/-- `kIOReturnBadArgument` (32-bit pattern of the IOKit error). -/
def kIOReturnBadArgument : Nat := 0xE00002C2

/-- `kSMCReturnSuccess` from smc.h. -/
def kSMCReturnSuccess : Nat := 0

/-- `kSMCReturnError` from smc.h. -/
def kSMCReturnError : Nat := 1

/-- `kSMCReturnKeyNotFound` from smc.h. -/
def kSMCReturnKeyNotFound : Nat := 132

/-- `kSMCReturnDataTypeMismatch` from smc.h. -/
def kSMCReturnDataTypeMismatch : Nat := 140

/-- `SMC_KERNEL_INDEX` from smc.h. -/
def SMC_KERNEL_INDEX : Nat := 2

/-- `SMC_CMD_READ_KEY` from smc.h. -/
def SMC_CMD_READ_KEY : Nat := 5

/-- `SMC_CMD_WRITE_KEY` from smc.h. -/
def SMC_CMD_WRITE_KEY : Nat := 6

/-- `SMC_CMD_GET_KEY_FROM_INDEX` from smc.h. -/
def SMC_CMD_GET_KEY_FROM_INDEX : Nat := 8

/-- `SMC_CMD_READ_KEY_INFO` from smc.h. -/
def SMC_CMD_READ_KEY_INFO : Nat := 9

/-- `SMCKeyData_vers_t` from smc.h (opaque pass-through for this core). -/
structure SMCKeyData_vers where
  major : Byte
  minor : Byte
  build : Byte
  reserved0 : Byte
  release : Nat
deriving DecidableEq

/-- Zeroed version sub-structure. -/
def zeroVers : SMCKeyData_vers := ⟨0, 0, 0, 0, 0⟩

/-- `SMCKeyData_pLimitData_t` from smc.h (opaque pass-through). -/
structure SMCKeyData_pLimitData where
  version : Nat
  length : Nat
  cpuPLimit : Nat
  gpuPLimit : Nat
  memPLimit : Nat
deriving DecidableEq

/-- Zeroed power-limit sub-structure. -/
def zeroPLimit : SMCKeyData_pLimitData := ⟨0, 0, 0, 0, 0⟩

/-- `SMCKeyData_keyInfo_t` from smc.h: per-key metadata. -/
structure SMCKeyData_keyInfo where
  dataSize : Nat
  dataType : Nat
  dataAttributes : Nat
deriving DecidableEq

/-- Zeroed key-info sub-structure. -/
def zeroKeyInfo : SMCKeyData_keyInfo := ⟨0, 0, 0⟩

/-- `SMCBytes_t` from smc.h: a fixed 32-byte buffer. -/
abbrev SMCBytes := Fin 32 → Byte

/-- All-zero 32-byte buffer. -/
def zeroBytes : SMCBytes := fun _ => 0

/-- `SMCKeyData_t` from smc.h: the fixed-size transport request/response
structure. -/
structure SMCKeyData where
  key : Nat
  vers : SMCKeyData_vers
  pLimitData : SMCKeyData_pLimitData
  keyInfo : SMCKeyData_keyInfo
  result : Nat
  status : Nat
  data8 : Nat
  data32 : Nat
  bytes : SMCBytes
deriving DecidableEq

/-- A memset-to-zero `SMCKeyData_t`. -/
def zeroKeyData : SMCKeyData :=
  ⟨0, zeroVers, zeroPLimit, zeroKeyInfo, 0, 0, 0, 0, zeroBytes⟩

/-- `SMCVal_t` from smc.h: a read/write value. -/
structure SMCVal where
  key : UInt32Char
  dataSize : Nat
  dataType : UInt32Char
  bytes : SMCBytes
deriving DecidableEq

/-- A memset-to-zero `SMCVal_t`. -/
def zeroVal : SMCVal := ⟨zeroChars, 0, zeroChars, zeroBytes⟩

/-- `SMCResult_t` from smc.h: the pair of a kernel-level and a
protocol-level status. -/
structure SMCResult where
  kern_res : Nat
  smc_res : Nat
deriving DecidableEq

/-- `FourCharCodeFromString` from smc.c: packs the first four characters
big-endian into a 32-bit value; a NULL input (modelled as `none`) yields 0. -/
def FourCharCodeFromString (str : Option UInt32Char) : Nat :=
  match str with
  | none => 0
  | some s =>
      ((s.c0 : Nat) <<< 24) ||| ((s.c1 : Nat) <<< 16) |||
        ((s.c2 : Nat) <<< 8) ||| (s.c3 : Nat)

/-- The low byte of a natural number, as written in smc.c:
`(code >> k) & 0xFF` lands in an `unsigned char`. -/
def byteOf (x : Nat) : Byte :=
  ⟨x &&& 0xFF, Nat.lt_succ_of_le Nat.and_le_right⟩

/-- `StringFromFourCharCode` from smc.c: unpacks a 32-bit code big-endian
into the four character slots and NUL-terminates the buffer.  The C function
writes through an out pointer and returns early on NULL; every caller inside
smc.c passes a non-NULL pointer, so the embedding is the pure function
computing the written buffer. -/
def StringFromFourCharCode (code : Nat) : UInt32Char :=
  { c0 := byteOf (code >>> 24)
    c1 := byteOf (code >>> 16)
    c2 := byteOf (code >>> 8)
    c3 := byteOf code
    c4 := 0 }

/-- One transport invocation: the selector and the input structure handed to
`SMCCall`. -/
structure TransportCall where
  selector : Nat
  input : SMCKeyData
deriving DecidableEq

/-- The opaque privileged transport (`IOConnectCallStructMethod` applied to
the connection): selector and input structure to output structure and
kernel-level status.  The connection handle is baked into the oracle. -/
abbrev Transport := Nat → SMCKeyData → SMCKeyData × Nat

/-- `SMCCall` from smc.c: one fixed-size exchange against the transport. -/
def SMCCall (selector : Nat) (inputStructure : SMCKeyData) (t : Transport) :
    SMCKeyData × Nat :=
  t selector inputStructure

/-- The key-info cache contents: a finite mapping from 32-bit key codes to
their metadata, represented as an association list. -/
abbrev KeyInfoMap := List (Nat × SMCKeyData_keyInfo)

/-- Modelled from the spec: `mapKeyInfo_get` comes from the vendored
`khashl.h` hash map, which is not part of the examined sources; the spec
describes the cache operation as `get(key) -> KeyMetadata option`. -/
def mapKeyInfo_get (m : KeyInfoMap) (key : Nat) : Option SMCKeyData_keyInfo :=
  List.lookup key m

/-- Modelled from the spec: `mapKeyInfo_put` plus the `if (absent)` value
assignment in smc.c come from the vendored `khashl.h` hash map; the spec
describes the combination as an insert-if-absent `put(key, metadata)` whose
second writer is discarded. -/
def mapKeyInfo_put (m : KeyInfoMap) (key : Nat) (v : SMCKeyData_keyInfo) :
    KeyInfoMap :=
  match List.lookup key m with
  | some _ => m
  | none => (key, v) :: m

/-- The process-global cache state of smc.c: whether the `pthread_once`
guard `g_cacheInitOnce` has fired, and the map pointer `g_keyInfoCache`
(`none` models the NULL pointer). -/
structure CacheState where
  cacheInitDone : Bool
  keyInfoCache : Option KeyInfoMap
deriving DecidableEq

/-- The state at process start: the once-guard has not fired and the map
pointer is NULL. -/
def initialState : CacheState := ⟨false, none⟩

/-- `pthread_once(&g_cacheInitOnce, init_cache)`: on the first call ever it
runs `init_cache`, which allocates an empty map; afterwards it does
nothing (the guard never re-arms). -/
def pthread_once_init_cache (st : CacheState) : CacheState :=
  if st.cacheInitDone then st
  else { cacheInitDone := true, keyInfoCache := some [] }

/-- `destroy_cache` from smc.c: a no-op on a NULL map, otherwise frees the
map and NULLs the pointer.  It does not touch the once-guard. -/
def destroy_cache (st : CacheState) : CacheState :=
  match st.keyInfoCache with
  | none => st
  | some _ => { st with keyInfoCache := none }

/-- `SMCCleanupCache` from smc.c: destroys the cache under the lock. -/
def SMCCleanupCache (st : CacheState) : CacheState :=
  destroy_cache st

/-- The input structure built by `SMCGetKeyInfo` for the read-key-info
transport call: zeroed except for the key and the command selector. -/
def infoInput (key : Nat) : SMCKeyData :=
  { zeroKeyData with key := key, data8 := SMC_CMD_READ_KEY_INFO }

/-- Result of `SMCGetKeyInfo`: the status pair, the contents of the caller's
`keyInfo` buffer after the call (`none` when a NULL pointer was passed), the
cache state after the call, and the transport calls issued. -/
structure GetKeyInfoOut where
  result : SMCResult
  keyInfo : Option SMCKeyData_keyInfo
  state : CacheState
  calls : List TransportCall
deriving DecidableEq

/-- `SMCGetKeyInfo` from smc.c.  The `keyInfo` argument is the caller's out
buffer: `none` models a NULL pointer, `some v` a buffer currently holding
`v`.  A `none` overall result models undefined behavior: after
`SMCCleanupCache` the once-guard has already fired, so the map pointer stays
NULL and `mapKeyInfo_get` dereferences NULL. -/
def SMCGetKeyInfo (key : Nat) (keyInfo : Option SMCKeyData_keyInfo)
    (t : Transport) (st : CacheState) : Option GetKeyInfoOut :=
  match keyInfo with
  | none => some ⟨⟨kIOReturnBadArgument, kSMCReturnError⟩, none, st, []⟩
  | some ki0 =>
    let st1 := pthread_once_init_cache st
    match st1.keyInfoCache with
    | none => none
    | some m =>
      match mapKeyInfo_get m key with
      | some v =>
          some ⟨⟨kIOReturnSuccess, kSMCReturnSuccess⟩, some v, st1, []⟩
      | none =>
          let outk := SMCCall SMC_KERNEL_INDEX (infoInput key) t
          let result : SMCResult := ⟨outk.2, outk.1.result⟩
          if outk.2 ≠ kIOReturnSuccess ∨ outk.1.result ≠ kSMCReturnSuccess then
            some ⟨result, some ki0, st1, [⟨SMC_KERNEL_INDEX, infoInput key⟩]⟩
          else
            some ⟨result, some outk.1.keyInfo,
              { st1 with keyInfoCache := some (mapKeyInfo_put m key outk.1.keyInfo) },
              [⟨SMC_KERNEL_INDEX, infoInput key⟩]⟩

/-- The input structure built by `SMCReadKey` for the read-key transport
call: zeroed except for the key, the learned size, and the selector. -/
def readInput (keyCode dataSize : Nat) : SMCKeyData :=
  { zeroKeyData with
    key := keyCode
    keyInfo := { zeroKeyInfo with dataSize := dataSize }
    data8 := SMC_CMD_READ_KEY }

/-- Result of `SMCReadKey`: the status pair, the caller's value buffer after
the call (`none` when a NULL pointer was passed), the cache state and the
transport calls issued. -/
structure ReadKeyOut where
  result : SMCResult
  val : Option SMCVal
  state : CacheState
  calls : List TransportCall
deriving DecidableEq

/-- `SMCReadKey` from smc.c.  `key` and `val` are the caller's pointers
(`none` models NULL; on the NULL paths the value buffer is left untouched). -/
def SMCReadKey (key : Option UInt32Char) (val : Option SMCVal)
    (t : Transport) (st : CacheState) : Option ReadKeyOut :=
  match key, val with
  | none, v => some ⟨⟨kIOReturnBadArgument, kSMCReturnError⟩, v, st, []⟩
  | some _, none => some ⟨⟨kIOReturnBadArgument, kSMCReturnError⟩, none, st, []⟩
  | some k, some _ =>
    let keyCode := FourCharCodeFromString (some k)
    let val1 : SMCVal := { zeroVal with key := StringFromFourCharCode keyCode }
    match SMCGetKeyInfo keyCode (some zeroKeyInfo) t st with
    | none => none
    | some info =>
      if info.result.kern_res ≠ kIOReturnSuccess ∨
          info.result.smc_res ≠ kSMCReturnSuccess then
        some ⟨info.result, some val1, info.state, info.calls⟩
      else
        let ki := info.keyInfo.getD zeroKeyInfo
        let val2 := { val1 with
          dataSize := ki.dataSize
          dataType := StringFromFourCharCode ki.dataType }
        let outk := SMCCall SMC_KERNEL_INDEX (readInput keyCode val2.dataSize) t
        let result : SMCResult := ⟨outk.2, outk.1.result⟩
        let calls := info.calls ++ [⟨SMC_KERNEL_INDEX, readInput keyCode val2.dataSize⟩]
        if outk.2 ≠ kIOReturnSuccess ∨ outk.1.result ≠ kSMCReturnSuccess then
          some ⟨result, some val2, info.state, calls⟩
        else
          some ⟨result, some { val2 with bytes := outk.1.bytes }, info.state, calls⟩

/-- The input structure built by `SMCWriteKey` for the write transport call:
zeroed except for the key, the selector, the declared size and the payload
bytes. -/
def writeInput (keyCode : Nat) (v : SMCVal) : SMCKeyData :=
  { zeroKeyData with
    key := keyCode
    data8 := SMC_CMD_WRITE_KEY
    keyInfo := { zeroKeyInfo with dataSize := v.dataSize }
    bytes := v.bytes }

/-- Result of `SMCWriteKey`: status pair, cache state, transport calls. -/
structure WriteKeyOut where
  result : SMCResult
  state : CacheState
  calls : List TransportCall
deriving DecidableEq

/-- `SMCWriteKey` from smc.c.  The local `keyData` buffer is uninitialized
in C; it is only read after a successful `SMCGetKeyInfo` has overwritten it,
so the model passes an arbitrary (zero) initial buffer. -/
def SMCWriteKey (val : Option SMCVal) (t : Transport) (st : CacheState) :
    Option WriteKeyOut :=
  match val with
  | none => some ⟨⟨kIOReturnBadArgument, kSMCReturnError⟩, st, []⟩
  | some v =>
    let keyCode := FourCharCodeFromString (some v.key)
    match SMCGetKeyInfo keyCode (some zeroKeyInfo) t st with
    | none => none
    | some info =>
      if info.result.kern_res ≠ kIOReturnSuccess ∨
          info.result.smc_res ≠ kSMCReturnSuccess then
        some ⟨info.result, info.state, info.calls⟩
      else
        let keyData := info.keyInfo.getD zeroKeyInfo
        if keyData.dataSize ≠ v.dataSize ∨
            keyData.dataType ≠ FourCharCodeFromString (some v.dataType) then
          some ⟨⟨kIOReturnBadArgument, kSMCReturnDataTypeMismatch⟩,
            info.state, info.calls⟩
        else
          let outk := SMCCall SMC_KERNEL_INDEX (writeInput keyCode v) t
          some ⟨⟨outk.2, outk.1.result⟩, info.state,
            info.calls ++ [⟨SMC_KERNEL_INDEX, writeInput keyCode v⟩]⟩

/-- The input structure built by `SMCGetKeyFromIndex`: zeroed except for the
selector and the numeric index in the command-context field. -/
def indexInput (index : Nat) : SMCKeyData :=
  { zeroKeyData with data8 := SMC_CMD_GET_KEY_FROM_INDEX, data32 := index }

/-- `SMCGetKeyFromIndex` from smc.c.  It never touches the cache, so it is a
total function of the transport; `key` is the caller's out buffer (`none`
models NULL, and on failure paths the buffer is left untouched). -/
def SMCGetKeyFromIndex (index : Nat) (key : Option UInt32Char)
    (t : Transport) : SMCResult × Option UInt32Char × List TransportCall :=
  match key with
  | none => (⟨kIOReturnBadArgument, kSMCReturnError⟩, none, [])
  | some k0 =>
    let outk := SMCCall SMC_KERNEL_INDEX (indexInput index) t
    let result : SMCResult := ⟨outk.2, outk.1.result⟩
    if outk.2 ≠ kIOReturnSuccess ∨ outk.1.result ≠ kSMCReturnSuccess then
      (result, some k0, [⟨SMC_KERNEL_INDEX, indexInput index⟩])
    else
      (result, some (StringFromFourCharCode outk.1.key),
        [⟨SMC_KERNEL_INDEX, indexInput index⟩])

/-! ## Codec lemmas -/

/-- A shifted value ored with a small value is their sum. -/
theorem shiftLor_eq (a b i : Nat) (h : b < 2 ^ i) :
    a <<< i ||| b = a * 2 ^ i + b := by
  rw [Nat.shiftLeft_eq, Nat.mul_comm a (2 ^ i)]
  exact (Nat.mul_add_lt_is_or h a).symm

/-- The value of `byteOf` is reduction modulo 256. -/
theorem byteOf_val (x : Nat) : (byteOf x : Nat) = x % 256 := by
  show x &&& 0xFF = x % 256
  have h := Nat.and_pow_two_sub_one_eq_mod x 8
  norm_num at h
  exact h

/-- `FourCharCodeFromString` on a non-NULL buffer is the big-endian
arithmetic combination of the first four bytes. -/
theorem fourCharCode_arith (s : UInt32Char) :
    FourCharCodeFromString (some s) =
      (s.c0 : Nat) * 2 ^ 24 + (s.c1 : Nat) * 2 ^ 16 +
        (s.c2 : Nat) * 2 ^ 8 + (s.c3 : Nat) := by
  have h1 : (s.c1 : Nat) < 256 := s.c1.isLt
  have h2 : (s.c2 : Nat) < 256 := s.c2.isLt
  have h3 : (s.c3 : Nat) < 256 := s.c3.isLt
  show ((s.c0 : Nat) <<< 24) ||| ((s.c1 : Nat) <<< 16) |||
      ((s.c2 : Nat) <<< 8) ||| (s.c3 : Nat) = _
  rw [Nat.or_assoc, Nat.or_assoc,
    shiftLor_eq (s.c2 : Nat) (s.c3 : Nat) 8 (by omega),
    shiftLor_eq (s.c1 : Nat) _ 16 (by omega),
    shiftLor_eq (s.c0 : Nat) _ 24 (by omega)]
  omega

/-- The four character slots of `StringFromFourCharCode` hold the big-endian
bytes of the code, and the fifth slot is the NUL terminator. -/
theorem stringFromFourCharCode_vals (code : Nat) :
    ((StringFromFourCharCode code).c0 : Nat) = code / 2 ^ 24 % 256 ∧
    ((StringFromFourCharCode code).c1 : Nat) = code / 2 ^ 16 % 256 ∧
    ((StringFromFourCharCode code).c2 : Nat) = code / 2 ^ 8 % 256 ∧
    ((StringFromFourCharCode code).c3 : Nat) = code % 256 ∧
    (StringFromFourCharCode code).c4 = 0 := by
  refine ⟨?_, ?_, ?_, ?_, rfl⟩ <;>
    simp [StringFromFourCharCode, byteOf_val, Nat.shiftRight_eq_div_pow]

/-- Two character buffers with equal components are equal. -/
theorem uInt32Char_ext {x y : UInt32Char} (h0 : x.c0 = y.c0)
    (h1 : x.c1 = y.c1) (h2 : x.c2 = y.c2) (h3 : x.c3 = y.c3)
    (h4 : x.c4 = y.c4) : x = y := by
  cases x
  cases y
  congr 1

/-- Claim C3: for every textual key held in a `UInt32Char_t` buffer whose
terminator slot is NUL (which covers all 4-character keys as well as shorter,
NUL-padded ones), decoding the identifier produced from it yields the
original text, and the decoded output is NUL-terminated. -/
theorem codec_text_roundTrip (s : UInt32Char) (h4 : s.c4 = 0) :
    StringFromFourCharCode (FourCharCodeFromString (some s)) = s := by
  rw [fourCharCode_arith]
  obtain ⟨hv0, hv1, hv2, hv3, hv4⟩ := stringFromFourCharCode_vals
    ((s.c0 : Nat) * 2 ^ 24 + (s.c1 : Nat) * 2 ^ 16 +
      (s.c2 : Nat) * 2 ^ 8 + (s.c3 : Nat))
  have ha := s.c0.isLt
  have hb := s.c1.isLt
  have hc := s.c2.isLt
  have hd := s.c3.isLt
  refine uInt32Char_ext (Fin.ext ?_) (Fin.ext ?_) (Fin.ext ?_) (Fin.ext ?_)
    (hv4.trans h4.symm)
  · rw [hv0]; omega
  · rw [hv1]; omega
  · rw [hv2]; omega
  · rw [hv3]; omega

/-- Witness for claim C3 at the concrete four-character key FNum. -/
theorem codec_text_roundTrip_witness :
    StringFromFourCharCode (FourCharCodeFromString
      (some ⟨0x46, 0x4E, 0x75, 0x6D, 0⟩)) = ⟨0x46, 0x4E, 0x75, 0x6D, 0⟩ :=
  codec_text_roundTrip ⟨0x46, 0x4E, 0x75, 0x6D, 0⟩ rfl

/-- Claim C4: the identifier built from the text TC0P is the big-endian
value 0x54433050, and decoding 0x54433050 yields the text TC0P. -/
theorem codec_tc0p :
    FourCharCodeFromString (some ⟨0x54, 0x43, 0x30, 0x50, 0⟩) = 0x54433050 ∧
    StringFromFourCharCode 0x54433050 = ⟨0x54, 0x43, 0x30, 0x50, 0⟩ := by
  constructor <;> decide

/-- Claim C10: for every 32-bit identifier, including those with embedded
zero bytes, encoding the decoded text yields the identifier back: the codec
reads all four character positions unconditionally. -/
theorem codec_id_roundTrip (code : Nat) (h : code < 2 ^ 32) :
    FourCharCodeFromString (some (StringFromFourCharCode code)) = code := by
  rw [fourCharCode_arith]
  obtain ⟨hv0, hv1, hv2, hv3, -⟩ := stringFromFourCharCode_vals code
  rw [hv0, hv1, hv2, hv3]
  omega

/-- Witness for claim C10 at an identifier with an embedded zero byte. -/
theorem codec_id_roundTrip_witness :
    FourCharCodeFromString (some (StringFromFourCharCode 0x54003050)) =
      0x54003050 :=
  codec_id_roundTrip 0x54003050 (by decide)

/-! ## Key-info cache lemmas -/

/-- When the once-guard has fired, `pthread_once` is a no-op. -/
theorem pthread_once_noop {st : CacheState} (h : st.cacheInitDone = true) :
    pthread_once_init_cache st = st := by
  unfold pthread_once_init_cache
  rw [h]
  simp

/-- Every transport call issued by `SMCGetKeyInfo` carries the
read-key-info command selector. -/
theorem getKeyInfo_calls_are_info {key : Nat} {ki0 : Option SMCKeyData_keyInfo}
    {t : Transport} {st : CacheState} {out : GetKeyInfoOut}
    (h : SMCGetKeyInfo key ki0 t st = some out) :
    ∀ c ∈ out.calls, c.input.data8 = SMC_CMD_READ_KEY_INFO := by
  unfold SMCGetKeyInfo at h
  cases ki0 with
  | none =>
    simp only [Option.some.injEq] at h
    subst h
    intro c hc
    simp at hc
  | some ki0v =>
    dsimp only at h
    cases hcache : (pthread_once_init_cache st).keyInfoCache with
    | none =>
      rw [hcache] at h
      simp at h
    | some m =>
      rw [hcache] at h
      dsimp only at h
      cases hget : mapKeyInfo_get m key with
      | some v =>
        rw [hget] at h
        simp only [Option.some.injEq] at h
        subst h
        intro c hc
        simp at hc
      | none =>
        rw [hget] at h
        dsimp only [SMCCall] at h
        split at h <;>
        · simp only [Option.some.injEq] at h
          subst h
          intro c hc
          simp only [List.mem_singleton] at hc
          subst hc
          rfl

/-- Claim C5: a `SMCGetKeyInfo` call for a key already populated in the
cache issues no transport call, returns the cached metadata with a
synthesized success status pair, and leaves the state unchanged, so every
subsequent call for that key behaves identically. -/
theorem getKeyInfo_cache_hit (key : Nat) (ki ki0 : SMCKeyData_keyInfo)
    (m : KeyInfoMap) (t : Transport) (st : CacheState)
    (h1 : st.cacheInitDone = true) (h2 : st.keyInfoCache = some m)
    (h3 : mapKeyInfo_get m key = some ki) :
    SMCGetKeyInfo key (some ki0) t st =
      some ⟨⟨kIOReturnSuccess, kSMCReturnSuccess⟩, some ki, st, []⟩ := by
  unfold SMCGetKeyInfo
  dsimp only
  rw [pthread_once_noop h1, h2]
  dsimp only
  rw [h3]

/-- Witness for claim C5: a concrete hit on a one-entry cache. -/
theorem getKeyInfo_cache_hit_witness :
    SMCGetKeyInfo 5 (some zeroKeyInfo) (fun _ i => (i, 0))
      ⟨true, some [(5, ⟨4, 7, 0⟩)]⟩ =
      some ⟨⟨kIOReturnSuccess, kSMCReturnSuccess⟩, some ⟨4, 7, 0⟩,
        ⟨true, some [(5, ⟨4, 7, 0⟩)]⟩, []⟩ :=
  getKeyInfo_cache_hit 5 ⟨4, 7, 0⟩ zeroKeyInfo [(5, ⟨4, 7, 0⟩)]
    (fun _ i => (i, 0)) ⟨true, some [(5, ⟨4, 7, 0⟩)]⟩ rfl rfl rfl

/-- Claim C6: when a `SMCGetKeyInfo` cache miss queries the transport and
the query fails at either level, the operation returns that failure status,
leaves the caller's buffer untouched and leaves the cache state completely
unchanged, so a later call for the same key issues the transport query
again. -/
theorem getKeyInfo_miss_failure_not_cached (key : Nat)
    (ki0 : SMCKeyData_keyInfo) (m : KeyInfoMap) (t : Transport)
    (st : CacheState) (h1 : st.cacheInitDone = true)
    (h2 : st.keyInfoCache = some m) (h3 : mapKeyInfo_get m key = none)
    (hf : (t SMC_KERNEL_INDEX (infoInput key)).2 ≠ kIOReturnSuccess ∨
      (t SMC_KERNEL_INDEX (infoInput key)).1.result ≠ kSMCReturnSuccess) :
    SMCGetKeyInfo key (some ki0) t st =
      some ⟨⟨(t SMC_KERNEL_INDEX (infoInput key)).2,
          (t SMC_KERNEL_INDEX (infoInput key)).1.result⟩,
        some ki0, st, [⟨SMC_KERNEL_INDEX, infoInput key⟩]⟩ := by
  unfold SMCGetKeyInfo
  dsimp only
  rw [pthread_once_noop h1, h2]
  dsimp only
  rw [h3]
  dsimp only [SMCCall]
  rw [if_pos hf]

/-- Witness for claim C6: a concrete miss whose transport query reports a
key-not-found protocol status is not inserted into the cache. -/
theorem getKeyInfo_miss_failure_not_cached_witness :
    SMCGetKeyInfo 5 (some zeroKeyInfo)
      (fun _ _ => ({ zeroKeyData with result := kSMCReturnKeyNotFound },
        kIOReturnSuccess))
      ⟨true, some []⟩ =
      some ⟨⟨kIOReturnSuccess, kSMCReturnKeyNotFound⟩, some zeroKeyInfo,
        ⟨true, some []⟩, [⟨SMC_KERNEL_INDEX, infoInput 5⟩]⟩ :=
  getKeyInfo_miss_failure_not_cached 5 zeroKeyInfo [] _ ⟨true, some []⟩
    rfl rfl rfl (Or.inr (by decide))

/-! ## Protocol operation theorems -/

/-- Claim C7: when the key-info step of `SMCReadKey` fails at either level,
`SMCReadKey` returns exactly that failure status pair together with the
partially populated value, and issues no read-key transport call. -/
theorem readKey_propagates_info_failure (k : UInt32Char) (v0 : SMCVal)
    (t : Transport) (st : CacheState) (out : GetKeyInfoOut)
    (hinfo : SMCGetKeyInfo (FourCharCodeFromString (some k))
      (some zeroKeyInfo) t st = some out)
    (hf : out.result.kern_res ≠ kIOReturnSuccess ∨
      out.result.smc_res ≠ kSMCReturnSuccess) :
    SMCReadKey (some k) (some v0) t st =
      some ⟨out.result,
        some { zeroVal with
          key := StringFromFourCharCode (FourCharCodeFromString (some k)) },
        out.state, out.calls⟩
    ∧ ∀ c ∈ out.calls, c.input.data8 ≠ SMC_CMD_READ_KEY := by
  constructor
  · unfold SMCReadKey
    dsimp only
    rw [hinfo]
    dsimp only
    rw [if_pos hf]
  · intro c hc
    rw [getKeyInfo_calls_are_info hinfo c hc]
    decide

/-- A transport whose protocol status byte always reports key-not-found. -/
def tNotFound : Transport :=
  fun _ _ => ({ zeroKeyData with result := kSMCReturnKeyNotFound },
    kIOReturnSuccess)

/-- Witness for claim C7: a concrete read whose info step reports
key-not-found aborts with that status. -/
theorem readKey_propagates_info_failure_witness :
    SMCReadKey (some ⟨0x54, 0x43, 0x30, 0x50, 0⟩) (some zeroVal) tNotFound
      initialState =
      some ⟨⟨kIOReturnSuccess, kSMCReturnKeyNotFound⟩,
        some { zeroVal with
          key := StringFromFourCharCode (FourCharCodeFromString
            (some ⟨0x54, 0x43, 0x30, 0x50, 0⟩)) },
        ⟨true, some []⟩,
        [⟨SMC_KERNEL_INDEX, infoInput (FourCharCodeFromString
          (some ⟨0x54, 0x43, 0x30, 0x50, 0⟩))⟩]⟩ :=
  (readKey_propagates_info_failure ⟨0x54, 0x43, 0x30, 0x50, 0⟩ zeroVal
    tNotFound initialState
    ⟨⟨kIOReturnSuccess, kSMCReturnKeyNotFound⟩, some zeroKeyInfo,
      ⟨true, some []⟩,
      [⟨SMC_KERNEL_INDEX, infoInput (FourCharCodeFromString
        (some ⟨0x54, 0x43, 0x30, 0x50, 0⟩))⟩]⟩
    (by rfl) (Or.inr (by decide))).1

/-- Claim C2: when the metadata queried by `SMCWriteKey` disagrees with the
value's declared size or decoded type, the operation returns the dedicated
data-type-mismatch status pair and issues no write transport call; and a
write transport call is issued only when both size and type exactly match. -/
theorem writeKey_mismatch_rejected (v : SMCVal) (t : Transport)
    (st : CacheState) (ki : SMCKeyData_keyInfo) (out : GetKeyInfoOut)
    (hinfo : SMCGetKeyInfo (FourCharCodeFromString (some v.key))
      (some zeroKeyInfo) t st = some out)
    (hok : out.result = ⟨kIOReturnSuccess, kSMCReturnSuccess⟩)
    (hki : out.keyInfo = some ki) :
    (ki.dataSize ≠ v.dataSize ∨
        ki.dataType ≠ FourCharCodeFromString (some v.dataType) →
      SMCWriteKey (some v) t st =
        some ⟨⟨kIOReturnBadArgument, kSMCReturnDataTypeMismatch⟩,
          out.state, out.calls⟩
      ∧ ∀ c ∈ out.calls, c.input.data8 ≠ SMC_CMD_WRITE_KEY)
    ∧ ∀ wout, SMCWriteKey (some v) t st = some wout →
        (∃ c ∈ wout.calls, c.input.data8 = SMC_CMD_WRITE_KEY) →
        ki.dataSize = v.dataSize ∧
          ki.dataType = FourCharCodeFromString (some v.dataType) := by
  have hcalls := getKeyInfo_calls_are_info hinfo
  have hmm_eq : ∀ (_ : ki.dataSize ≠ v.dataSize ∨
      ki.dataType ≠ FourCharCodeFromString (some v.dataType)),
      SMCWriteKey (some v) t st =
        some ⟨⟨kIOReturnBadArgument, kSMCReturnDataTypeMismatch⟩,
          out.state, out.calls⟩ := by
    intro hmm
    unfold SMCWriteKey
    dsimp only
    rw [hinfo]
    dsimp only
    rw [if_neg (by rw [hok]; simp)]
    rw [hki]
    dsimp only [Option.getD]
    rw [if_pos hmm]
  refine ⟨fun hmm => ⟨hmm_eq hmm, ?_⟩, ?_⟩
  · intro c hc
    rw [hcalls c hc]
    decide
  · intro wout hw hex
    by_cases hmm : ki.dataSize ≠ v.dataSize ∨
        ki.dataType ≠ FourCharCodeFromString (some v.dataType)
    · exfalso
      rw [hmm_eq hmm] at hw
      simp only [Option.some.injEq] at hw
      subst hw
      obtain ⟨c, hc, hcw⟩ := hex
      rw [hcalls c hc] at hcw
      exact absurd hcw (by decide)
    · push_neg at hmm
      exact hmm

/-- A transport that always succeeds and reports metadata of size 4 and
type code 100 for every key. -/
def tMeta : Transport :=
  fun _ _ => ({ zeroKeyData with keyInfo := ⟨4, 100, 0⟩ }, kIOReturnSuccess)

/-- A value whose declared size 2 disagrees with the size 4 reported by
`tMeta`. -/
def vBad : SMCVal := { zeroVal with key := ⟨1, 2, 3, 4, 0⟩, dataSize := 2 }

/-- Witness for claim C2: writing `vBad` against `tMeta` is rejected with
the data-type-mismatch status after only the key-info transport call. -/
theorem writeKey_mismatch_rejected_witness :
    SMCWriteKey (some vBad) tMeta initialState =
      some ⟨⟨kIOReturnBadArgument, kSMCReturnDataTypeMismatch⟩,
        ⟨true, some [(FourCharCodeFromString (some vBad.key), ⟨4, 100, 0⟩)]⟩,
        [⟨SMC_KERNEL_INDEX, infoInput (FourCharCodeFromString
          (some vBad.key))⟩]⟩ :=
  ((writeKey_mismatch_rejected vBad tMeta initialState ⟨4, 100, 0⟩
    ⟨⟨kIOReturnSuccess, kSMCReturnSuccess⟩, some ⟨4, 100, 0⟩,
      ⟨true, some [(FourCharCodeFromString (some vBad.key), ⟨4, 100, 0⟩)]⟩,
      [⟨SMC_KERNEL_INDEX, infoInput (FourCharCodeFromString
        (some vBad.key))⟩]⟩
    (by rfl) rfl rfl).1 (Or.inl (by decide))).1

/-- Claim C9: `SMCGetKeyFromIndex` rejects a NULL output pointer with a
failure pair and no transport call; otherwise it issues exactly one
transport call whose command context carries the numeric index, and when
that call fails at either level the caller's output buffer is returned
untouched together with the failure status. -/
theorem getKeyFromIndex_frame (idx : Nat) (k0 : UInt32Char) (t : Transport) :
    SMCGetKeyFromIndex idx none t =
      (⟨kIOReturnBadArgument, kSMCReturnError⟩, none, [])
    ∧ (SMCGetKeyFromIndex idx (some k0) t).2.2 =
        [⟨SMC_KERNEL_INDEX, indexInput idx⟩]
    ∧ (indexInput idx).data32 = idx
    ∧ ((t SMC_KERNEL_INDEX (indexInput idx)).2 ≠ kIOReturnSuccess ∨
        (t SMC_KERNEL_INDEX (indexInput idx)).1.result ≠ kSMCReturnSuccess →
      SMCGetKeyFromIndex idx (some k0) t =
        (⟨(t SMC_KERNEL_INDEX (indexInput idx)).2,
            (t SMC_KERNEL_INDEX (indexInput idx)).1.result⟩, some k0,
          [⟨SMC_KERNEL_INDEX, indexInput idx⟩])) := by
  refine ⟨rfl, ?_, rfl, ?_⟩
  · unfold SMCGetKeyFromIndex
    dsimp only [SMCCall]
    split <;> rfl
  · intro hf
    unfold SMCGetKeyFromIndex
    dsimp only [SMCCall]
    rw [if_pos hf]

/-- A transport that always fails at the kernel level. -/
def tKernFail : Transport := fun _ _ => (zeroKeyData, kIOReturnBadArgument)

/-- Witness for claim C9: a failing index query leaves the concrete output
buffer untouched. -/
theorem getKeyFromIndex_frame_witness :
    SMCGetKeyFromIndex 7 (some ⟨9, 9, 9, 9, 0⟩) tKernFail =
      (⟨kIOReturnBadArgument, 0⟩, some ⟨9, 9, 9, 9, 0⟩,
        [⟨SMC_KERNEL_INDEX, indexInput 7⟩]) :=
  (getKeyFromIndex_frame 7 ⟨9, 9, 9, 9, 0⟩ tKernFail).2.2.2
    (Or.inl (by decide))

/-- Claim C1: after a successful `SMCGetKeyInfo` has fired the once-guard,
`SMCCleanupCache` NULLs the map pointer without re-arming the guard, so the
next `SMCGetKeyInfo` finds the guard already fired and dereferences the NULL
map pointer (modelled as the crash value `none`) instead of re-initializing
and repopulating the cache as the specification requires. -/
theorem cleanup_then_getKeyInfo_crashes :
    SMCGetKeyInfo 5 (some zeroKeyInfo) tMeta initialState =
      some ⟨⟨kIOReturnSuccess, kSMCReturnSuccess⟩, some ⟨4, 100, 0⟩,
        ⟨true, some [(5, ⟨4, 100, 0⟩)]⟩, [⟨SMC_KERNEL_INDEX, infoInput 5⟩]⟩
    ∧ SMCCleanupCache ⟨true, some [(5, ⟨4, 100, 0⟩)]⟩ = ⟨true, none⟩
    ∧ SMCGetKeyInfo 5 (some zeroKeyInfo) tMeta ⟨true, none⟩ = none :=
  ⟨rfl, rfl, rfl⟩

/-! ## Buffer-capacity lemmas -/

/-- A successful association-list lookup yields a member pair. -/
theorem lookup_mem {m : KeyInfoMap} {k : Nat} {v : SMCKeyData_keyInfo}
    (h : List.lookup k m = some v) : (k, v) ∈ m := by
  induction m with
  | nil => simp at h
  | cons p rest ih =>
    obtain ⟨pk, pv⟩ := p
    rw [List.lookup_cons] at h
    cases hbeq : k == pk with
    | true =>
      rw [hbeq] at h
      dsimp only at h
      simp only [Option.some.injEq] at h
      subst h
      have hk : k = pk := by simpa using hbeq
      subst hk
      exact List.mem_cons_self _ _
    | false =>
      rw [hbeq] at h
      dsimp only at h
      exact List.mem_cons_of_mem _ (ih h)

/-- Lazy initialization preserves the size bound on cache entries. -/
theorem init_cache_bounded (st : CacheState)
    (hc : ∀ m, st.keyInfoCache = some m → ∀ p ∈ m, p.2.dataSize ≤ 32) :
    ∀ m, (pthread_once_init_cache st).keyInfoCache = some m →
      ∀ p ∈ m, p.2.dataSize ≤ 32 := by
  unfold pthread_once_init_cache
  split
  · exact hc
  · intro m hm
    simp only [Option.some.injEq] at hm
    subst hm
    intro p hp
    simp at hp

/-- Metadata delivered by `SMCGetKeyInfo` into the caller's buffer is either
bounded by the transport/cache bounds or is the caller's untouched initial
buffer contents. -/
theorem getKeyInfo_keyInfo_le (key : Nat) (ki0 : SMCKeyData_keyInfo)
    (t : Transport) (st : CacheState) (out : GetKeyInfoOut)
    (hb : ∀ sel inp, ((t sel inp).1.keyInfo.dataSize ≤ 32))
    (hc : ∀ m, st.keyInfoCache = some m → ∀ p ∈ m, p.2.dataSize ≤ 32)
    (h : SMCGetKeyInfo key (some ki0) t st = some out) :
    ∀ ki, out.keyInfo = some ki → ki.dataSize ≤ 32 ∨ ki = ki0 := by
  have hc1 := init_cache_bounded st hc
  unfold SMCGetKeyInfo at h
  dsimp only at h
  cases hcache : (pthread_once_init_cache st).keyInfoCache with
  | none =>
    rw [hcache] at h
    simp at h
  | some m =>
    rw [hcache] at h
    dsimp only at h
    cases hget : mapKeyInfo_get m key with
    | some v =>
      rw [hget] at h
      simp only [Option.some.injEq] at h
      subst h
      intro ki hki
      simp only [Option.some.injEq] at hki
      subst hki
      exact Or.inl (hc1 m hcache (key, v) (lookup_mem hget))
    | none =>
      rw [hget] at h
      dsimp only [SMCCall] at h
      split at h
      · simp only [Option.some.injEq] at h
        subst h
        intro ki hki
        simp only [Option.some.injEq] at hki
        subst hki
        exact Or.inr rfl
      · simp only [Option.some.injEq] at h
        subst h
        intro ki hki
        simp only [Option.some.injEq] at hki
        subst hki
        exact Or.inl (hb SMC_KERNEL_INDEX (infoInput key))

/-- Claim C8, amended: `SMCReadKey` copies the declared size straight from
the key-info metadata without clamping, so the produced value's `dataSize`
is bounded by 32 exactly when every metadata source is: whenever all
transport responses and all pre-existing cache entries report sizes of at
most 32, every value buffer written by `SMCReadKey` has `dataSize ≤ 32`.
The byte copy itself transfers exactly the fixed 32-byte response buffer,
which the embedding enforces by the buffer type. -/
theorem readKey_dataSize_le (k : UInt32Char) (v0 : SMCVal) (t : Transport)
    (st : CacheState) (out : ReadKeyOut) (v : SMCVal)
    (hb : ∀ sel inp, ((t sel inp).1.keyInfo.dataSize ≤ 32))
    (hc : ∀ m, st.keyInfoCache = some m → ∀ p ∈ m, p.2.dataSize ≤ 32)
    (h : SMCReadKey (some k) (some v0) t st = some out)
    (hv : out.val = some v) :
    v.dataSize ≤ 32 := by
  unfold SMCReadKey at h
  dsimp only at h
  cases hinfo : SMCGetKeyInfo (FourCharCodeFromString (some k))
      (some zeroKeyInfo) t st with
  | none =>
    rw [hinfo] at h
    simp at h
  | some info =>
    rw [hinfo] at h
    dsimp only [SMCCall] at h
    have hkile := getKeyInfo_keyInfo_le _ _ _ _ _ hb hc hinfo
    have hgetD : (info.keyInfo.getD zeroKeyInfo).dataSize ≤ 32 := by
      cases hik : info.keyInfo with
      | none => simp [Option.getD, zeroKeyInfo]
      | some ki =>
        simp only [Option.getD]
        rcases hkile ki hik with hle | hz
        · exact hle
        · rw [hz]
          decide
    split at h
    · simp only [Option.some.injEq] at h
      subst h
      simp only [Option.some.injEq] at hv
      subst hv
      exact Nat.zero_le 32
    · split at h <;>
      · simp only [Option.some.injEq] at h
        subst h
        simp only [Option.some.injEq] at hv
        subst hv
        exact hgetD

/-- A transport that always succeeds and reports metadata whose declared
size 33 exceeds the 32-byte buffer capacity. -/
def tBig : Transport :=
  fun _ _ => ({ zeroKeyData with keyInfo := ⟨33, 0, 0⟩ }, kIOReturnSuccess)

/-- Counterexample to claim C8 as stated: nothing in `SMCReadKey` clamps
the declared size, so a transport reporting size 33 produces a value whose
`dataSize` field exceeds the 32-byte buffer capacity. -/
theorem readKey_dataSize_exceeds_capacity :
    ((SMCReadKey (some ⟨1, 2, 3, 4, 0⟩) (some zeroVal) tBig
        initialState).map (fun o => o.val.map SMCVal.dataSize)) =
      some (some 33) ∧ ¬(33 ≤ 32) :=
  ⟨rfl, by decide⟩

/-- The key code of the concrete text buffer used in the C8 witness. -/
def kc1234 : Nat := FourCharCodeFromString (some ⟨1, 2, 3, 4, 0⟩)

/-- The value buffer produced by reading that key against `tMeta`. -/
def vRead : SMCVal :=
  ⟨StringFromFourCharCode kc1234, 4, StringFromFourCharCode 100, zeroBytes⟩

/-- Witness for claim C8, amended form: against the size-4 transport
`tMeta`, the value produced by a concrete read has `dataSize ≤ 32`. -/
theorem readKey_dataSize_le_witness : vRead.dataSize ≤ 32 :=
  readKey_dataSize_le ⟨1, 2, 3, 4, 0⟩ zeroVal tMeta initialState
    ⟨⟨kIOReturnSuccess, kSMCReturnSuccess⟩, some vRead,
      ⟨true, some [(kc1234, ⟨4, 100, 0⟩)]⟩,
      [⟨SMC_KERNEL_INDEX, infoInput kc1234⟩,
        ⟨SMC_KERNEL_INDEX, readInput kc1234 4⟩]⟩
    vRead (fun _ _ => (by decide : (4 : Nat) ≤ 32))
    (fun _ hm => nomatch hm) (by rfl) rfl
